import Mathlib

/-!
Verification development for the `EcoNet::BeePolytopeGuard` engine
(`src/qpudatashards/particles/include/BeePolytopeGuard.hpp`).

The C++ arithmetic on `double` is embedded over `ℚ`; the fixed boundary
tolerance `1e-9` becomes the rational `1 / 10^9`.  Each definition below
mirrors one struct or member function of the header.
-/

namespace EcoNet

/-- Mirror of `struct State5D`: the five-dimensional environment state. -/
structure State5D where
  pm25_ug_m3   : ℚ
  nox_ppb      : ℚ
  o3_ppb       : ℚ
  temp_C       : ℚ
  floral_m2_ha : ℚ
deriving Repr, DecidableEq

/-- Mirror of `struct BeeHazardParams`: LC50 thresholds, mixture weights and
the PM2.5-equivalent viability bound. -/
structure BeeHazardParams where
  lc50_pm25_ug_m3 : ℚ
  lc50_nox_ppb    : ℚ
  lc50_o3_ppb     : ℚ
  lc50_voc_ug_m3  : ℚ
  w_pm25 : ℚ
  w_nox  : ℚ
  w_o3   : ℚ
  w_voc  : ℚ
  pm25_eq_viability_ug_m3 : ℚ
deriving Repr, DecidableEq

/-- Mirror of `struct BeeHazardState`: the result of `computeHazard`. -/
structure BeeHazardState where
  r_bee   : ℚ
  pm25_eq : ℚ
  within_viability : Bool
deriving Repr, DecidableEq

/-- One half-space row of a polytope matrix (`std::array<double, 5>`),
in the coordinate order used by `inPolytope`:
pm25, nox, o3, temp, floral. -/
structure Row5 where
  c0 : ℚ
  c1 : ℚ
  c2 : ℚ
  c3 : ℚ
  c4 : ℚ
deriving Repr, DecidableEq

/-- Mirror of `struct Polytope`: `{x ∈ R^5 | A x ≤ b}` with `A : m × 5`
and `b : m`.  The C++ code reads `b[i]` for every `i < A.size()`, so the
two lists are paired positionally. -/
structure Polytope where
  A : List Row5
  b : List ℚ
deriving Repr, DecidableEq

/-- Mirror of `enum class RegionClass`. -/
inductive RegionClass where
  | FORAGE_SAFE
  | RETREAT_ONLY
  | FORBIDDEN
deriving Repr, DecidableEq

/-- Mirror of `struct BeeActuationLimits`: the actuation directive. -/
structure BeeActuationLimits where
  region : RegionClass
  duty_scale : ℚ
  allow_foraging : Bool
deriving Repr, DecidableEq

/-- The state of a constructed `BeePolytopeGuard`: hazard parameters, the
two polytopes and the two risk limits, as stored by the constructor. -/
structure BeePolytopeGuard where
  params      : BeeHazardParams
  foragePoly  : Polytope
  retreatPoly : Polytope
  rBeeSoftLimit : ℚ
  rBeeHardLimit : ℚ
deriving Repr, DecidableEq

/-- The fixed membership tolerance `1e-9` of `inPolytope`. -/
def tol : ℚ := 1 / 1000000000

/-- The dot product `Σⱼ row[j] * x[j]` of one half-space row with the
state vector `{pm25, nox, o3, temp, floral}`, unrolling the inner loop of
`inPolytope`. -/
def dotRow (r : Row5) (s : State5D) : ℚ :=
  r.c0 * s.pm25_ug_m3 + r.c1 * s.nox_ppb + r.c2 * s.o3_ppb +
    r.c3 * s.temp_C + r.c4 * s.floral_m2_ha

/-- Mirror of `BeePolytopeGuard::inPolytope`: the point is a member unless
some row `i` has `dot > b[i] + 1e-9`. -/
def inPolytope (P : Polytope) (s : State5D) : Bool :=
  (P.A.zip P.b).all fun rb => dotRow rb.1 s ≤ rb.2 + tol

/-- One pollutant channel's ratio in `computeHazard`:
`reading / lc50` when `lc50 > 0`, else `0`. -/
def chanRatio (lc50 reading : ℚ) : ℚ :=
  if 0 < lc50 then reading / lc50 else 0

/-- Mirror of `BeePolytopeGuard::computeHazard`. -/
def computeHazard (g : BeePolytopeGuard) (s : State5D) (voc_ug_m3 : ℚ) :
    BeeHazardState :=
  let r_pm  := chanRatio g.params.lc50_pm25_ug_m3 s.pm25_ug_m3
  let r_nox := chanRatio g.params.lc50_nox_ppb    s.nox_ppb
  let r_o3  := chanRatio g.params.lc50_o3_ppb     s.o3_ppb
  let r_voc := chanRatio g.params.lc50_voc_ug_m3  voc_ug_m3
  let r_bee :=
    g.params.w_pm25 * r_pm + g.params.w_nox * r_nox +
      g.params.w_o3 * r_o3 + g.params.w_voc * r_voc
  let pm25_eq :=
    s.pm25_ug_m3 + g.params.w_nox * s.nox_ppb +
      g.params.w_o3 * s.o3_ppb + g.params.w_voc * voc_ug_m3
  { r_bee := r_bee
    pm25_eq := pm25_eq
    within_viability :=
      decide (pm25_eq ≤ g.params.pm25_eq_viability_ug_m3) &&
        decide (r_bee ≤ g.rBeeSoftLimit) }

/-- Mirror of `BeePolytopeGuard::classifyRegion`: forage polytope first,
then retreat, else forbidden. -/
def classifyRegion (g : BeePolytopeGuard) (s : State5D) : RegionClass :=
  if inPolytope g.foragePoly s then RegionClass.FORAGE_SAFE
  else if inPolytope g.retreatPoly s then RegionClass.RETREAT_ONLY
  else RegionClass.FORBIDDEN

/-- Mirror of `BeePolytopeGuard::computeActuation`: hard stop, then
throttled tier with the linear clip `α = max(0, 1 - r_bee/hardLimit)`,
else full duty with foraging allowed. -/
def computeActuation (g : BeePolytopeGuard) (s : State5D) (voc_ug_m3 : ℚ) :
    BeeActuationLimits :=
  let hz := computeHazard g s voc_ug_m3
  let region := classifyRegion g s
  if region = RegionClass.FORBIDDEN ∨ g.rBeeHardLimit ≤ hz.r_bee then
    { region := region, duty_scale := 0, allow_foraging := false }
  else if region = RegionClass.RETREAT_ONLY ∨ g.rBeeSoftLimit < hz.r_bee then
    { region := region
      duty_scale := max 0 (1 - hz.r_bee / g.rBeeHardLimit) * (1/2)
      allow_foraging := false }
  else
    { region := region, duty_scale := 1, allow_foraging := true }

/-! ## Spec-side membership predicate and helper lemmas -/

/-- Point-in-polytope membership as the spec words it: every half-space row
satisfies `row · x ≤ bound + ε` with the fixed tolerance. -/
def satisfiesPolytope (P : Polytope) (s : State5D) : Prop :=
  ∀ rb ∈ P.A.zip P.b, dotRow rb.1 s ≤ rb.2 + tol

lemma inPolytope_eq_true_iff (P : Polytope) (s : State5D) :
    inPolytope P s = true ↔ satisfiesPolytope P s := by
  simp [inPolytope, satisfiesPolytope, List.all_eq_true]

lemma chanRatio_of_nonpos {lc : ℚ} (h : lc ≤ 0) (v : ℚ) : chanRatio lc v = 0 := by
  unfold chanRatio
  rw [if_neg (not_lt.mpr h)]

lemma chanRatio_mono {lc v w : ℚ} (h : v ≤ w) : chanRatio lc v ≤ chanRatio lc w := by
  unfold chanRatio
  split_ifs with hl
  · exact (div_le_div_iff_of_pos_right hl).mpr h
  · exact le_rfl

/-! ## Concrete instances used by witnesses and counterexamples -/

/-- Parameters with only the organic channel active (weights sum to 1),
all thresholds positive. -/
def pOnlyVoc : BeeHazardParams := ⟨1, 1, 1, 1, 0, 0, 0, 1, 10⟩

/-- A single half-space `pm25 ≤ -1`, violated at the origin. -/
def blockRow : Row5 := ⟨1, 0, 0, 0, 0⟩

/-- A polytope excluding the origin. -/
def blockPoly : Polytope := ⟨[blockRow], [-1]⟩

/-- The zero-constraint polytope (all of space). -/
def emptyPoly : Polytope := ⟨[], []⟩

/-- The origin state. -/
def sZero : State5D := ⟨0, 0, 0, 0, 0⟩

/-- A state differing from the origin only in temperature and floral density. -/
def sTF : State5D := ⟨0, 0, 0, 5, 7⟩

/-- Guard whose forage polytope excludes the origin and whose retreat
polytope is all of space: the origin classifies as retreat-only. -/
def gRetreat : BeePolytopeGuard := ⟨pOnlyVoc, blockPoly, emptyPoly, 1, 10⟩

/-- Guard excluding the origin from both polytopes: the origin is forbidden. -/
def gForbidden : BeePolytopeGuard := ⟨pOnlyVoc, blockPoly, blockPoly, 1, 10⟩

/-- Guard with both polytopes empty: every point is forage-safe. -/
def gOpen : BeePolytopeGuard := ⟨pOnlyVoc, emptyPoly, emptyPoly, 1, 10⟩

/-- Guard whose four thresholds are all zero. -/
def gZeroThr : BeePolytopeGuard := ⟨⟨0, 0, 0, 0, 1, 1, 1, 1, 10⟩, emptyPoly, emptyPoly, 1, 10⟩

/-! ## Claim theorems -/

/-- C1: for every state and organic concentration, if the classified region
is forbidden or the composite risk index is at least the hard limit,
computeActuation returns duty scale 0 and forbids foraging; either
condition alone is sufficient. -/
theorem hard_stop_zero_duty (g : BeePolytopeGuard) (s : State5D) (voc : ℚ)
    (h : classifyRegion g s = RegionClass.FORBIDDEN ∨
      g.rBeeHardLimit ≤ (computeHazard g s voc).r_bee) :
    (computeActuation g s voc).duty_scale = 0 ∧
      (computeActuation g s voc).allow_foraging = false := by
  simp only [computeActuation]
  rw [if_pos h]
  exact ⟨rfl, rfl⟩

/-- Witness for C1 at a concrete forbidden state. -/
theorem hard_stop_zero_duty_witness :
    (computeActuation gForbidden sZero 0).duty_scale = 0 ∧
      (computeActuation gForbidden sZero 0).allow_foraging = false :=
  hard_stop_zero_duty gForbidden sZero 0
    (Or.inl (by norm_num [classifyRegion, inPolytope, gForbidden, blockPoly,
      blockRow, sZero, dotRow, tol, pOnlyVoc]))

/-- C3: classifyRegion returns forage-safe iff the point satisfies every
half-space of the forage polytope up to the tolerance; otherwise
retreat-only iff it satisfies the retreat polytope; otherwise forbidden.
Forage is checked first, so a point in both polytopes is forage-safe. -/
theorem classifyRegion_spec (g : BeePolytopeGuard) (s : State5D) :
    (classifyRegion g s = RegionClass.FORAGE_SAFE ↔
      satisfiesPolytope g.foragePoly s) ∧
    (classifyRegion g s = RegionClass.RETREAT_ONLY ↔
      ¬ satisfiesPolytope g.foragePoly s ∧ satisfiesPolytope g.retreatPoly s) ∧
    (classifyRegion g s = RegionClass.FORBIDDEN ↔
      ¬ satisfiesPolytope g.foragePoly s ∧ ¬ satisfiesPolytope g.retreatPoly s) := by
  by_cases h1 : inPolytope g.foragePoly s = true
  · have hs1 : satisfiesPolytope g.foragePoly s := (inPolytope_eq_true_iff _ _).mp h1
    simp only [classifyRegion]
    rw [if_pos h1]
    refine ⟨?_, ?_, ?_⟩ <;> simp [hs1]
  · have hs1 : ¬ satisfiesPolytope g.foragePoly s :=
      fun hs => h1 ((inPolytope_eq_true_iff _ _).mpr hs)
    by_cases h2 : inPolytope g.retreatPoly s = true
    · have hs2 : satisfiesPolytope g.retreatPoly s := (inPolytope_eq_true_iff _ _).mp h2
      simp only [classifyRegion]
      rw [if_neg h1, if_pos h2]
      refine ⟨?_, ?_, ?_⟩ <;> simp [hs1, hs2]
    · have hs2 : ¬ satisfiesPolytope g.retreatPoly s :=
        fun hs => h2 ((inPolytope_eq_true_iff _ _).mpr hs)
      simp only [classifyRegion]
      rw [if_neg h1, if_neg h2]
      refine ⟨?_, ?_, ?_⟩ <;> simp [hs1, hs2]

/-- Witness for C3: at the all-of-space guard the origin satisfies the
forage polytope and is labeled forage-safe. -/
theorem classifyRegion_spec_witness :
    classifyRegion gOpen sZero = RegionClass.FORAGE_SAFE :=
  (classifyRegion_spec gOpen sZero).1.mpr
    (by simp [satisfiesPolytope, gOpen, emptyPoly])

/-- C7: the viability flag is true iff both the equivalent-concentration
index is at most the configured viability threshold and the composite risk
index is at most the soft risk limit. -/
theorem within_viability_iff (g : BeePolytopeGuard) (s : State5D) (voc : ℚ) :
    (computeHazard g s voc).within_viability = true ↔
      ((computeHazard g s voc).pm25_eq ≤ g.params.pm25_eq_viability_ug_m3 ∧
        (computeHazard g s voc).r_bee ≤ g.rBeeSoftLimit) := by
  simp [computeHazard]

/-- Witness for C7 at a concrete in-corridor state. -/
theorem within_viability_iff_witness :
    (computeHazard gOpen sZero 0).within_viability = true :=
  (within_viability_iff gOpen sZero 0).mpr
    (by constructor <;> norm_num [computeHazard, chanRatio, gOpen, sZero, pOnlyVoc])

/-- C10: computeHazard does not read temperature or floral density: two
states agreeing on the three airborne-pollutant coordinates give identical
results for the same organic concentration and configuration. -/
theorem computeHazard_ignores_temp_floral (g : BeePolytopeGuard)
    (s1 s2 : State5D) (voc : ℚ)
    (hp : s1.pm25_ug_m3 = s2.pm25_ug_m3) (hn : s1.nox_ppb = s2.nox_ppb)
    (ho : s1.o3_ppb = s2.o3_ppb) :
    computeHazard g s1 voc = computeHazard g s2 voc := by
  simp [computeHazard, hp, hn, ho]

/-- Witness for C10: the origin and a state differing only in temperature
and floral density hash to the same hazard result. -/
theorem computeHazard_ignores_temp_floral_witness :
    computeHazard gOpen sZero 0 = computeHazard gOpen sTF 0 :=
  computeHazard_ignores_temp_floral gOpen sZero sTF 0 rfl rfl rfl

/-- C2 counterexample: with the organic-channel weight 1, threshold 1, and
a reading of -1000 at a retreat-only state (soft 1, hard 10), the duty
scale is 101/2, far above 1, so duty is not confined to [0,1] for every
input and configuration. -/
theorem duty_scale_unit_cex :
    ¬ ((computeActuation gRetreat sZero (-1000)).duty_scale ≤ 1) := by
  have h : (computeActuation gRetreat sZero (-1000)).duty_scale = 101 / 2 := by
    norm_num [computeActuation, computeHazard, classifyRegion, inPolytope,
      chanRatio, gRetreat, sZero, pOnlyVoc, blockPoly, emptyPoly, blockRow,
      dotRow, tol]
    rfl
  rw [h]
  norm_num

/-- C2 (amended): whenever the computed composite risk index is
non-negative — in particular for all non-negative readings and weights —
the duty scale returned by computeActuation lies in [0,1]. -/
theorem duty_scale_mem_unit (g : BeePolytopeGuard) (s : State5D) (voc : ℚ)
    (h : 0 ≤ (computeHazard g s voc).r_bee) :
    0 ≤ (computeActuation g s voc).duty_scale ∧
      (computeActuation g s voc).duty_scale ≤ 1 := by
  simp only [computeActuation]
  split_ifs with h1 h2
  · dsimp only
    norm_num
  · dsimp only
    push_neg at h1
    have hH : (computeHazard g s voc).r_bee < g.rBeeHardLimit := h1.2
    have hHpos : (0 : ℚ) < g.rBeeHardLimit := lt_of_le_of_lt h hH
    have hdiv : 0 ≤ (computeHazard g s voc).r_bee / g.rBeeHardLimit :=
      div_nonneg h hHpos.le
    have hmax : max 0 (1 - (computeHazard g s voc).r_bee / g.rBeeHardLimit) ≤ 1 :=
      max_le (by norm_num) (by linarith)
    constructor
    · exact mul_nonneg (le_max_left 0 _) (by norm_num)
    · calc max 0 (1 - (computeHazard g s voc).r_bee / g.rBeeHardLimit) * (1 / 2)
          ≤ 1 * (1 / 2) := mul_le_mul_of_nonneg_right hmax (by norm_num)
        _ ≤ 1 := by norm_num
  · dsimp only
    norm_num

/-- Witness for the amended C2 at a zero-risk forage-safe state. -/
theorem duty_scale_mem_unit_witness :
    0 ≤ (computeActuation gOpen sZero 0).duty_scale ∧
      (computeActuation gOpen sZero 0).duty_scale ≤ 1 :=
  duty_scale_mem_unit gOpen sZero 0
    (by norm_num [computeHazard, chanRatio, gOpen, sZero, pOnlyVoc])

/-- C4 counterexample: at a retreat-only state with organic reading -10
(risk index -10, below the hard limit 10, so the throttled tier is
reached), the duty scale is 1, exceeding the claimed 0.5 ceiling. -/
theorem throttled_half_cex :
    classifyRegion gRetreat sZero = RegionClass.RETREAT_ONLY ∧
      (computeHazard gRetreat sZero (-10)).r_bee < gRetreat.rBeeHardLimit ∧
      1 / 2 < (computeActuation gRetreat sZero (-10)).duty_scale := by
  refine ⟨?_, ?_, ?_⟩
  · norm_num [classifyRegion, inPolytope, gRetreat, sZero, blockPoly,
      emptyPoly, blockRow, dotRow, tol, pOnlyVoc]
  · norm_num [computeHazard, chanRatio, gRetreat, sZero, pOnlyVoc]
  · have h : (computeActuation gRetreat sZero (-10)).duty_scale = 1 := by
      norm_num [computeActuation, computeHazard, classifyRegion, inPolytope,
        chanRatio, gRetreat, sZero, pOnlyVoc, blockPoly, emptyPoly, blockRow,
        dotRow, tol]
      rfl
    rw [h]
    norm_num

/-- C4 (amended): every input reaching the throttled tier with a
non-negative composite risk index gets a duty scale of at most 0.5. -/
theorem throttled_duty_le_half (g : BeePolytopeGuard) (s : State5D) (voc : ℚ)
    (hns : ¬ (classifyRegion g s = RegionClass.FORBIDDEN ∨
      g.rBeeHardLimit ≤ (computeHazard g s voc).r_bee))
    (ht : classifyRegion g s = RegionClass.RETREAT_ONLY ∨
      g.rBeeSoftLimit < (computeHazard g s voc).r_bee)
    (hr : 0 ≤ (computeHazard g s voc).r_bee) :
    (computeActuation g s voc).duty_scale ≤ 1 / 2 := by
  simp only [computeActuation]
  rw [if_neg hns, if_pos ht]
  dsimp only
  push_neg at hns
  have hH : (computeHazard g s voc).r_bee < g.rBeeHardLimit := hns.2
  have hHpos : (0 : ℚ) < g.rBeeHardLimit := lt_of_le_of_lt hr hH
  have hdiv : 0 ≤ (computeHazard g s voc).r_bee / g.rBeeHardLimit :=
    div_nonneg hr hHpos.le
  have hmax : max 0 (1 - (computeHazard g s voc).r_bee / g.rBeeHardLimit) ≤ 1 :=
    max_le (by norm_num) (by linarith)
  calc max 0 (1 - (computeHazard g s voc).r_bee / g.rBeeHardLimit) * (1 / 2)
      ≤ 1 * (1 / 2) := mul_le_mul_of_nonneg_right hmax (by norm_num)
    _ = 1 / 2 := by norm_num

/-- Witness for the amended C4 at a retreat-only state with zero risk. -/
theorem throttled_duty_le_half_witness :
    (computeActuation gRetreat sZero 0).duty_scale ≤ 1 / 2 :=
  throttled_duty_le_half gRetreat sZero 0
    (by norm_num [classifyRegion, inPolytope, computeHazard, chanRatio,
        gRetreat, sZero, pOnlyVoc, blockPoly, emptyPoly, blockRow, dotRow, tol]
        decide)
    (Or.inl (by norm_num [classifyRegion, inPolytope, gRetreat, sZero,
        blockPoly, emptyPoly, blockRow, dotRow, tol, pOnlyVoc]))
    (by norm_num [computeHazard, chanRatio, gRetreat, sZero, pOnlyVoc])

/-- C5 counterexample: with both polytopes empty, the retreat polytope has
zero constraints, yet classifyRegion returns forage-safe (not retreat-only)
because the forage test runs first. -/
theorem empty_retreat_label_cex :
    gOpen.retreatPoly.A = [] ∧
      classifyRegion gOpen sZero ≠ RegionClass.RETREAT_ONLY := by
  refine ⟨rfl, ?_⟩
  have h : classifyRegion gOpen sZero = RegionClass.FORAGE_SAFE := rfl
  rw [h]
  decide

/-- C5 (amended): a zero-constraint polytope contains every point; if the
forage polytope has zero constraints, classifyRegion returns forage-safe
for every point, and if the retreat polytope has zero constraints,
classifyRegion never returns forbidden and returns retreat-only for every
point not in the forage polytope (forage-safe takes precedence for points
that are also in the forage polytope). -/
theorem classify_empty_polytope (g : BeePolytopeGuard) (s : State5D) :
    (g.foragePoly.A = [] →
      inPolytope g.foragePoly s = true ∧
        classifyRegion g s = RegionClass.FORAGE_SAFE) ∧
    (g.retreatPoly.A = [] →
      inPolytope g.retreatPoly s = true ∧
        classifyRegion g s ≠ RegionClass.FORBIDDEN ∧
        (inPolytope g.foragePoly s = false →
          classifyRegion g s = RegionClass.RETREAT_ONLY)) := by
  have hin : ∀ P : Polytope, P.A = [] → inPolytope P s = true := by
    intro P hP
    simp [inPolytope, hP]
  constructor
  · intro hf
    refine ⟨hin _ hf, ?_⟩
    simp [classifyRegion, hin _ hf]
  · intro hr
    refine ⟨hin _ hr, ?_, ?_⟩
    · unfold classifyRegion
      by_cases hfor : inPolytope g.foragePoly s = true
      · simp [hfor]
      · simp [hfor, hin _ hr]
    · intro hnf
      unfold classifyRegion
      rw [hnf, hin _ hr]
      simp

/-- Witness for the amended C5: both polytopes empty at the origin for the
forage conjunct, and a guard whose forage polytope excludes the origin but
whose retreat polytope is empty for the retreat-only conjunct. -/
theorem classify_empty_polytope_witness :
    (inPolytope gOpen.foragePoly sZero = true ∧
      classifyRegion gOpen sZero = RegionClass.FORAGE_SAFE) ∧
    (inPolytope gRetreat.retreatPoly sZero = true ∧
      classifyRegion gRetreat sZero = RegionClass.RETREAT_ONLY) :=
  ⟨(classify_empty_polytope gOpen sZero).1 rfl,
   ((classify_empty_polytope gRetreat sZero).2 rfl).1,
   ((classify_empty_polytope gRetreat sZero).2 rfl).2.2
     (by norm_num [inPolytope, gRetreat, blockPoly, blockRow, sZero, dotRow, tol])⟩

/-- C6: for each pollutant channel, a threshold that is zero or negative
forces that channel's ratio to 0 for every reading, so the channel
contributes nothing to the composite risk index: changing the reading
cannot change r_bee. -/
theorem nonpos_threshold_no_contribution (g : BeePolytopeGuard)
    (s : State5D) (voc : ℚ) :
    (g.params.lc50_pm25_ug_m3 ≤ 0 → ∀ v : ℚ,
      chanRatio g.params.lc50_pm25_ug_m3 v = 0 ∧
        (computeHazard g { s with pm25_ug_m3 := v } voc).r_bee =
          (computeHazard g s voc).r_bee) ∧
    (g.params.lc50_nox_ppb ≤ 0 → ∀ v : ℚ,
      chanRatio g.params.lc50_nox_ppb v = 0 ∧
        (computeHazard g { s with nox_ppb := v } voc).r_bee =
          (computeHazard g s voc).r_bee) ∧
    (g.params.lc50_o3_ppb ≤ 0 → ∀ v : ℚ,
      chanRatio g.params.lc50_o3_ppb v = 0 ∧
        (computeHazard g { s with o3_ppb := v } voc).r_bee =
          (computeHazard g s voc).r_bee) ∧
    (g.params.lc50_voc_ug_m3 ≤ 0 → ∀ v : ℚ,
      chanRatio g.params.lc50_voc_ug_m3 v = 0 ∧
        (computeHazard g s v).r_bee = (computeHazard g s voc).r_bee) := by
  refine ⟨fun h v => ⟨chanRatio_of_nonpos h v, ?_⟩,
          fun h v => ⟨chanRatio_of_nonpos h v, ?_⟩,
          fun h v => ⟨chanRatio_of_nonpos h v, ?_⟩,
          fun h v => ⟨chanRatio_of_nonpos h v, ?_⟩⟩ <;>
    simp [computeHazard, chanRatio_of_nonpos h]

/-- Witness for C6 on the all-zero-threshold guard, particulate channel. -/
theorem nonpos_threshold_no_contribution_witness :
    chanRatio gZeroThr.params.lc50_pm25_ug_m3 7 = 0 ∧
      (computeHazard gZeroThr { sZero with pm25_ug_m3 := 7 } 0).r_bee =
        (computeHazard gZeroThr sZero 0).r_bee :=
  (nonpos_threshold_no_contribution gZeroThr sZero 0).1 (by norm_num [gZeroThr]) 7

/-- C8: with all four mixture weights non-negative, the composite risk
index is monotone non-decreasing in each individual pollutant reading,
the other readings and the configuration held fixed. -/
theorem r_bee_monotone (g : BeePolytopeGuard) (s : State5D) (voc : ℚ)
    (h1 : 0 ≤ g.params.w_pm25) (h2 : 0 ≤ g.params.w_nox)
    (h3 : 0 ≤ g.params.w_o3) (h4 : 0 ≤ g.params.w_voc)
    (v w : ℚ) (hvw : v ≤ w) :
    (computeHazard g { s with pm25_ug_m3 := v } voc).r_bee ≤
      (computeHazard g { s with pm25_ug_m3 := w } voc).r_bee ∧
    (computeHazard g { s with nox_ppb := v } voc).r_bee ≤
      (computeHazard g { s with nox_ppb := w } voc).r_bee ∧
    (computeHazard g { s with o3_ppb := v } voc).r_bee ≤
      (computeHazard g { s with o3_ppb := w } voc).r_bee ∧
    (computeHazard g s v).r_bee ≤ (computeHazard g s w).r_bee := by
  have m1 : g.params.w_pm25 * chanRatio g.params.lc50_pm25_ug_m3 v ≤
      g.params.w_pm25 * chanRatio g.params.lc50_pm25_ug_m3 w :=
    mul_le_mul_of_nonneg_left (chanRatio_mono hvw) h1
  have m2 : g.params.w_nox * chanRatio g.params.lc50_nox_ppb v ≤
      g.params.w_nox * chanRatio g.params.lc50_nox_ppb w :=
    mul_le_mul_of_nonneg_left (chanRatio_mono hvw) h2
  have m3 : g.params.w_o3 * chanRatio g.params.lc50_o3_ppb v ≤
      g.params.w_o3 * chanRatio g.params.lc50_o3_ppb w :=
    mul_le_mul_of_nonneg_left (chanRatio_mono hvw) h3
  have m4 : g.params.w_voc * chanRatio g.params.lc50_voc_ug_m3 v ≤
      g.params.w_voc * chanRatio g.params.lc50_voc_ug_m3 w :=
    mul_le_mul_of_nonneg_left (chanRatio_mono hvw) h4
  refine ⟨?_, ?_, ?_, ?_⟩ <;>
    · simp only [computeHazard]
      linarith

/-- Witness for C8 on the all-of-space guard at readings 1 and 2. -/
theorem r_bee_monotone_witness :
    (computeHazard gOpen { sZero with pm25_ug_m3 := 1 } 0).r_bee ≤
      (computeHazard gOpen { sZero with pm25_ug_m3 := 2 } 0).r_bee ∧
    (computeHazard gOpen { sZero with nox_ppb := 1 } 0).r_bee ≤
      (computeHazard gOpen { sZero with nox_ppb := 2 } 0).r_bee ∧
    (computeHazard gOpen { sZero with o3_ppb := 1 } 0).r_bee ≤
      (computeHazard gOpen { sZero with o3_ppb := 2 } 0).r_bee ∧
    (computeHazard gOpen sZero 1).r_bee ≤ (computeHazard gOpen sZero 2).r_bee :=
  r_bee_monotone gOpen sZero 0
    (by norm_num [gOpen, pOnlyVoc]) (by norm_num [gOpen, pOnlyVoc])
    (by norm_num [gOpen, pOnlyVoc]) (by norm_num [gOpen, pOnlyVoc])
    1 2 (by norm_num)

/-- C9: foraging is allowed iff the region is forage-safe, the risk index
is strictly below the hard limit, and the risk index does not exceed the
soft limit; and whenever foraging is allowed the duty scale is exactly 1. -/
theorem allow_foraging_iff (g : BeePolytopeGuard) (s : State5D) (voc : ℚ) :
    ((computeActuation g s voc).allow_foraging = true ↔
      (classifyRegion g s = RegionClass.FORAGE_SAFE ∧
        (computeHazard g s voc).r_bee < g.rBeeHardLimit ∧
        (computeHazard g s voc).r_bee ≤ g.rBeeSoftLimit)) ∧
    ((computeActuation g s voc).allow_foraging = true →
      (computeActuation g s voc).duty_scale = 1) := by
  simp only [computeActuation]
  split_ifs with hc1 hc2
  · refine ⟨iff_of_false (by simp) ?_, fun hct => absurd hct (by simp)⟩
    rintro ⟨hreg, hlt, -⟩
    rcases hc1 with hforb | hhard
    · rw [hreg] at hforb
      exact RegionClass.noConfusion hforb
    · exact absurd hhard (not_le.mpr hlt)
  · refine ⟨iff_of_false (by simp) ?_, fun hct => absurd hct (by simp)⟩
    rintro ⟨hreg, -, hle⟩
    rcases hc2 with hret | hsoft
    · rw [hreg] at hret
      exact RegionClass.noConfusion hret
    · exact absurd hsoft (not_lt.mpr hle)
  · push_neg at hc1 hc2
    have hreg : classifyRegion g s = RegionClass.FORAGE_SAFE := by
      cases hcl : classifyRegion g s with
      | FORAGE_SAFE => rfl
      | RETREAT_ONLY => exact absurd hcl hc2.1
      | FORBIDDEN => exact absurd hcl hc1.1
    exact ⟨iff_of_true rfl ⟨hreg, hc1.2, hc2.2⟩, fun _ => rfl⟩

/-- Witness for C9: at the all-of-space guard with zero readings, foraging
is allowed. -/
theorem allow_foraging_iff_witness :
    (computeActuation gOpen sZero 0).allow_foraging = true :=
  (allow_foraging_iff gOpen sZero 0).1.mpr
    ⟨rfl,
     by norm_num [computeHazard, chanRatio, gOpen, sZero, pOnlyVoc],
     by norm_num [computeHazard, chanRatio, gOpen, sZero, pOnlyVoc]⟩

end EcoNet
